import Mathlib

/-!
Verification of the conversation state machine and session-routing core of the
coffee-beans outbound voice agent (src/state.py, src/agents.py, src/session.py,
src/main.py).  Each Python function is embedded as an executable Lean function;
the language-model client is an explicit parameter (`LLM`) whose calls may fail
(`Except`), matching the `try`/`except` structure of the source.  Python's
in-place state mutation together with exception propagation is modelled by
`Except AgentState AgentState`: the `error` value carries the state as it stood
at the moment the exception was raised.
-/

namespace CoffeeBeans

/-- One entry of the legacy history kept by `main.py` (`{"role": ..., "content": ...}`). -/
structure ChatMsg where
  role : String
  content : String
deriving DecidableEq

/-- LangChain messages used inside the agent (`HumanMessage`, `AIMessage`, `SystemMessage`). -/
inductive LCMessage where
  | human (content : String)
  | ai (content : String)
  | system (content : String)
deriving DecidableEq

def LCMessage.is_human : LCMessage → Bool
  | .human _ => true
  | _ => false

/-- One tool call of the classifier's response (`response.tool_calls[i]`): the
tool name and the optional `service_type` argument (the only argument any of
the five supervisor tools declares). -/
structure ToolCall where
  name : String
  args_service_type : Option String
deriving DecidableEq

/-- The language-model client (`llm` of src/agents.py).  `invoke_with_tools`
models `llm.bind_tools(supervisor_tools).invoke(...).tool_calls`; `invoke`
models `llm.invoke(...).content`.  Either call may raise (provider error or
timeout), modelled by `Except Unit`. -/
structure LLM where
  invoke_with_tools : List LCMessage → Except Unit (List ToolCall)
  invoke : List LCMessage → Except Unit String

/-- `AgentState` of src/state.py.  `service_type` is the key set dynamically by
`supervisor_node` (absent from the TypedDict, read with
`state.get("service_type", "General")`), hence an `Option`. -/
structure AgentState where
  messages : List LCMessage
  next_worker : String
  customer_info : List (String × String)
  pain_points : List String
  info_gathered : Bool
  qualification_data : List (String × String)
  is_qualified_lead : Bool
  discussed_services : List String
  conversation_stage : String
  should_end : Bool
  turn_count : Nat
  call_sid : String
  service_type : Option String
deriving DecidableEq

/-! ### Prompts and company data (src/prompts.py) -/

/-- Per-service record of `COFFEEBEANS_SERVICES`; optional keys of the Python
dict become `Option` fields (`'industries' in details` is a presence test). -/
structure ServiceDetails where
  overview : String
  offerings : List String
  industries : Option (List String)
  benefits : Option String
deriving DecidableEq

def COFFEEBEANS_SERVICES : List (String × ServiceDetails) :=
  [("AI/ML",
    { overview := "We specialize in Generative AI, Natural Language Processing, and Computer Vision solutions.",
      offerings :=
        ["Generative AI models for content creation and automation",
         "NLP solutions to enhance user interactions and extract insights from text",
         "Computer Vision to enable systems to interpret and act on visual data",
         "AI Interviewer and AI-powered chatbots",
         "Churn Prediction and predictive analytics",
         "Custom AI consulting tailored to business objectives"],
      industries := some ["Healthcare", "Retail", "Finance", "Media & Entertainment"],
      benefits := none }),
   ("Blockchain",
    { overview := "We develop cutting-edge Blockchain solutions using Hyperledger Fabric and other technologies.",
      offerings :=
        ["Hyperledger Fabric development",
         "Smart contract development",
         "Decentralized application (dApp) development",
         "Blockchain consulting and architecture design",
         "Supply chain transparency solutions",
         "Fintech and healthcare blockchain solutions"],
      industries := some ["Fintech", "Healthcare", "Supply Chain", "Agriculture"],
      benefits := none }),
   ("DevOps",
    { overview := "DevOps as a Service to streamline operations and accelerate software delivery.",
      offerings :=
        ["CI/CD pipeline setup and automation",
         "Infrastructure as Code (IaC)",
         "Cloud migration and optimization (AWS, Azure, GCP)",
         "Container orchestration with Kubernetes",
         "Monitoring and observability setup",
         "Security and compliance automation"],
      industries := none,
      benefits := some "Faster releases, improved collaboration, reduced downtime, better scalability" }),
   ("QaaS",
    { overview := "Quality as a Service covering comprehensive software testing and performance analysis.",
      offerings :=
        ["Automated testing frameworks",
         "Performance and load testing",
         "Security testing and vulnerability assessment",
         "API testing and validation",
         "Mobile app testing",
         "Continuous testing in CI/CD pipelines"],
      industries := none,
      benefits := some "Improved software quality, faster time to market, reduced bugs in production" }),
   ("Big Data",
    { overview := "Big Data and Analytics solutions to help organizations make data-driven decisions.",
      offerings :=
        ["Data pipeline development and ETL",
         "Data lake and data warehouse design",
         "Real-time analytics and streaming data processing",
         "Business intelligence and dashboards",
         "Data governance and security",
         "Predictive analytics and machine learning on big data"],
      industries := some ["Healthcare", "E-commerce", "Finance", "Manufacturing"],
      benefits := none })]

/-- `get_service_info_for_prompt` of src/prompts.py. -/
def get_service_info_for_prompt : String :=
  let formatted := COFFEEBEANS_SERVICES.foldr
    (fun sd acc =>
      ["\n**" ++ sd.1 ++ ":**", "- " ++ sd.2.overview] ++
      (match sd.2.industries with
       | some inds => ["- Industries: " ++ String.intercalate ", " inds]
       | none => []) ++ acc)
    []
  String.intercalate "\n" formatted

def SUPERVISOR_PROMPT : String :=
  "You are an intelligent supervisor for a CoffeeBeans Consulting voice agent. Your role is to analyze the conversation and decide which specialized worker node should handle the next interaction.\n\n**Your Tools (Worker Nodes):**\n1. **gather_information** - Ask customer about company, role, industry, and challenges\n   - Use this FIRST when customer agrees to chat\n   - Only call once per conversation\n\n2. **provide_service_info** - Share information about CoffeeBeans services\n   - Can specify service_type: \"AI\", \"Blockchain\", \"DevOps\", \"QaaS\", \"BigData\", or \"General\"\n   - Tailor response based on customer info if available\n\n3. **qualify_customer** - Ask deeper qualifying questions (budget, timeline, decision process)\n   - Use after gathering basic info and showing interest\n\n4. **schedule_callback** - Schedule a follow-up call or consultation\n   - Use when customer wants to continue later or needs to speak with team\n\n5. **end_call** - End conversation politely\n   - Use when customer wants to disconnect or conversation is complete\n\n**Decision Guidelines:**\n- Start with gather_information if customer agrees to chat and we haven't asked yet\n- Use provide_service_info when customer asks about services or after gathering info\n- Route to schedule_callback if customer is busy or wants follow-up\n- Move to qualify_customer if customer shows strong interest\n- Choose end_call if customer wants to hang up or says \"not interested\" multiple times\n- Consider the conversation stage and turn count\n- Be respectful of customer's time - don't drag conversations\n\n**Context Available:**\n- Customer info (company, role, industry, pain points)\n- What's been discussed already\n- Conversation stage and turn count\n- Message history\n\nChoose the most appropriate next step based on the conversation flow and customer signals."

def INFORMATION_GATHERING_PROMPT : String :=
  "You are a friendly discovery specialist for CoffeeBeans. Your job is to gather information about the customer's challenges and priorities.\n\n**MINIMUM INFORMATION NEEDED TO COMPLETE GATHERING:**\nYou need to understand:\n1. Their main technology challenge/pain point\n2. Which challenge is most urgent/important to them\n\nCompany name, role, and industry are optional - don't push if they're reluctant to share.\n\n**YOUR APPROACH:**\n1. Gently offer questions about company/role/industry (they may share voluntarily)\n2. If they deflect or give vague answers, accept it and move on\n3. Always focus on understanding: What's the challenge? What's most urgent?\n4. Ask ONE follow-up question if their answer is vague:\n   - \"Could you tell me a bit more about that?\"\n   - \"What does that impact look like for you?\"\n\n**CRITICAL RULES:**\n- Do NOT ask the same question twice (in different ways or phrasings)\n- Do NOT keep probing for personal details if they're reluctant\n- Do NOT ask new questions after you understand their main challenge + priority\n- Be conversational, not interrogative\n- Show genuine interest in their responses\n- Keep it brief (this is a phone call)\n\n**HOW TO CONDUCT THE CONVERSATION:**\nStart by asking about their company and role. Example: \"Great! To better understand how we can help, could you tell me what company you're with and what your role is?\" If they share, acknowledge it. If they deflect, move on naturally.\n\nNext, ask about their challenges. Example: \"Are you currently facing any specific challenges with technology, AI, or data management?\" Listen to their response and show understanding.\n\nThen ask about priority. Example: \"Of the challenges you mentioned, which one is most urgent to address?\" This helps you understand what matters most to them.\n\n**COMPLETION & TRANSITION:**\nOnce you understand their main challenge and priority, acknowledge it and transition naturally:\n\"Great! So addressing this challenge is important to you. Let me share how we've helped companies in similar situations and what solutions might work well for you.\"\n\nYou're done gathering information - move to the next stage."

/-- `SERVICE_INFO_PROMPT` up to the `services_data` placeholder;
`SERVICE_INFO_PROMPT.format(services_data=...)` is modelled as
`SERVICE_INFO_PROMPT_PRE ++ services_data ++ SERVICE_INFO_PROMPT_POST`. -/
def SERVICE_INFO_PROMPT_PRE : String :=
  "You are a knowledgeable service specialist for CoffeeBeans. Your job is to provide clear, relevant information about our services.\n\n**Available Services:**\n"

def SERVICE_INFO_PROMPT_POST : String :=
  "\n\n**Your Task:**\n- If customer info is available, tailor your response to their industry and pain points\n- Focus on 1-2 most relevant services based on context\n- Provide concrete examples and benefits\n- Keep it conversational and concise (phone call format)\n- End with a question to gauge interest\n\n**How to Present Services:**\nIf you know their industry and challenges: Share a specific service that addresses their needs. Example: \"Based on what you mentioned about needing to improve data analytics, our Big Data and Analytics solution would be a great fit. We've helped similar companies set up real-time analytics and dashboards that transformed their decision-making process.\"\n\nIf you don't know their specific situation: Provide an overview of 2-3 key services that align with common business needs and ask what interests them most.\n\n**Guidelines:**\n- Don't overwhelm with all services at once\n- Focus on what's most relevant to their situation\n- Use concrete examples from similar companies or industries\n- Be conversational and brief (this is a phone call)"

def QUALIFICATION_PROMPT : String :=
  "You are a qualification specialist for CoffeeBeans. Your job is to ask deeper questions to understand if this is a good fit.\n\n**Questions to Ask (select 2-3 based on context):**\n1. What's your timeline for implementing a solution?\n2. What's your budget range for this initiative?\n3. Who else is involved in the decision-making process?\n4. Have you worked with consulting firms before? What worked or didn't work?\n5. What would success look like for you?\n\n**Guidelines:**\n- Be professional but not pushy\n- Ask questions naturally based on conversation flow\n- If they're hesitant about budget, that's okay - focus on timeline and needs\n- Take notes on their responses (update state)\n- Determine if they're a qualified lead\n\n**Important:** End by suggesting next steps - either more info, demo, or connect with team."

def SCHEDULING_PROMPT : String :=
  "You are a scheduling specialist for CoffeeBeans. Your job is to arrange a follow-up conversation or consultation.\n\n**YOUR TASK - CRITICAL RULES:**\n1. Do NOT ask questions that were already answered in the conversation above\n2. Only ask for contact information that hasn't been provided yet\n3. Be aware of what has already been discussed in the conversation history\n4. If you don't have their preferred time, ask: \"Would this week or next week work better for you?\"\n5. If you don't have time preference (mornings/afternoons), ask: \"Do you prefer mornings or afternoons?\"\n6. ONLY ask for email if you don't already have it\n7. ONLY ask for phone if you don't already have it\n8. Set expectations for what the team will discuss\n\n**How to Proceed:**\n- Review the conversation history above to understand what's already been gathered\n- Offer the follow-up naturally if not already done\n- Ask ONLY for missing information\n- Always ask one question at a time, listen, and progress naturally\n- Example of what NOT to do: Don't ask \"Would this week or next week work?\" if they already said \"next week\"\n\n**Natural Flow Example:**\nIf you already have their preferred time (e.g., \"next week, afternoons\") but no email:\n\"Perfect! So next week in the afternoon works. What's the best email address to reach you at?\"\n\nIf you have email but not phone:\n\"Great! And what's the best phone number to reach you at?\"\n\n**Final Step:**\nOnce you have collected the necessary information: \"Excellent! We'll send you a calendar invite and our team will reach out to discuss the details and answer your questions.\"\n\n**Guidelines:**\n- Check the conversation history above to see what's been answered\n- Be flexible and accommodating\n- Make it easy for them to say yes\n- Confirm details clearly\n- Be conversational and brief\n- Thank them for their time"

/-- The inline system prompt of `end_node` (src/agents.py line 302). -/
def END_CALL_PROMPT : String :=
  "You are ending the call. Provide a brief, polite closing statement."

/-! ### Supervisor and worker nodes (src/agents.py) -/

/-- Rendering of a Python `bool` inside an f-string. -/
def py_bool (b : Bool) : String :=
  if b then "True" else "False"

/-- Rendering of a Python `dict` of strings inside an f-string. -/
def py_repr_dict (d : List (String × String)) : String :=
  "\x7b" ++ String.intercalate ", "
    (d.map (fun e => "'" ++ e.1 ++ "': '" ++ e.2 ++ "'")) ++ "\x7d"

/-- Rendering of a Python `list` of strings inside an f-string. -/
def py_repr_list (l : List String) : String :=
  "[" ++ String.intercalate ", " (l.map (fun s => "'" ++ s ++ "'")) ++ "]"

/-- The `context` string built at src/agents.py lines 120-135: the optional
parts are present exactly when the corresponding collection is non-empty
(Python truthiness). -/
def supervisor_context (s : AgentState) : String :=
  let parts := ["Turn count: " ++ toString s.turn_count,
                "Conversation stage: " ++ s.conversation_stage,
                "Info gathered: " ++ py_bool s.info_gathered]
  let parts := parts ++
    (if s.customer_info.isEmpty then [] else ["Customer info: " ++ py_repr_dict s.customer_info])
  let parts := parts ++
    (if s.pain_points.isEmpty then [] else ["Pain points: " ++ py_repr_list s.pain_points])
  let parts := parts ++
    (if s.discussed_services.isEmpty then [] else
      ["Discussed services: " ++ py_repr_list s.discussed_services])
  String.intercalate "\n" parts

/-- The messages handed to the classifier call (src/agents.py lines 138-142). -/
def supervisor_messages (s : AgentState) : List LCMessage :=
  [LCMessage.system SUPERVISOR_PROMPT,
   LCMessage.system ("Current context:\n" ++ supervisor_context s)] ++ s.messages

/-- Lines 147-159 of src/agents.py: the default decision is
`provide_service_info`; a returned tool call overrides it, and a
`service_type` argument, when present, is persisted into the state. -/
def apply_tool_calls (state : AgentState) (tool_calls : List ToolCall) : AgentState :=
  match tool_calls with
  | [] => { state with next_worker := "provide_service_info" }
  | tc :: _ =>
    match tc.args_service_type with
    | some st => { state with service_type := some st, next_worker := tc.name }
    | none => { state with next_worker := tc.name }

/-- `supervisor_node` of src/agents.py. -/
def supervisor_node (llm : LLM) (state : AgentState) : Except AgentState AgentState :=
  match llm.invoke_with_tools (supervisor_messages state) with
  | .error _ => .error state
  | .ok tool_calls => .ok (apply_tool_calls state tool_calls)

/-- `user_messages[-1]` when it exists (the last `HumanMessage`). -/
def last_human (msgs : List LCMessage) : Option LCMessage :=
  (msgs.filter LCMessage.is_human).getLast?

/-- The prompt composed by `information_gathering_node` (lines 176-183). -/
def gathering_messages (s : AgentState) : List LCMessage :=
  [LCMessage.system INFORMATION_GATHERING_PROMPT] ++
    (match last_human s.messages with
     | some m => [m]
     | none => [])

/-- `information_gathering_node` of src/agents.py.  All state mutation happens
after the `llm.invoke` call, so a raise leaves the state untouched. -/
def information_gathering_node (llm : LLM) (state : AgentState) :
    Except AgentState AgentState :=
  if state.info_gathered then
    .ok { state with next_worker := "provide_service_info" }
  else
    match llm.invoke (gathering_messages state) with
    | .error _ => .error state
    | .ok content =>
      .ok { state with
              messages := state.messages ++ [LCMessage.ai content],
              info_gathered := true,
              conversation_stage := "discovery" }

/-- The `context` string of `service_info_node` (lines 202-218). -/
def service_info_context (s : AgentState) : String :=
  let parts := [get_service_info_for_prompt]
  let parts := parts ++
    (if s.customer_info.isEmpty then [] else
      ["\nCustomer context:",
       "- Company: " ++ ((s.customer_info.lookup "company_name").getD "Unknown"),
       "- Role: " ++ ((s.customer_info.lookup "role").getD "Unknown"),
       "- Industry: " ++ ((s.customer_info.lookup "industry").getD "Unknown")])
  let parts := parts ++
    (if s.pain_points.isEmpty then [] else
      ["- Pain points: " ++ String.intercalate ", " s.pain_points])
  let parts := parts ++ ["\nFocus on: " ++ (s.service_type.getD "General")]
  String.intercalate "\n" parts

/-- The prompt composed by `service_info_node` (lines 221-229). -/
def service_info_messages (s : AgentState) : List LCMessage :=
  [LCMessage.system
      (SERVICE_INFO_PROMPT_PRE ++ service_info_context s ++ SERVICE_INFO_PROMPT_POST)] ++
    (match last_human s.messages with
     | some m => [m]
     | none => [])

/-- `service_info_node` of src/agents.py: records the `service_type` into
`discussed_services` only when absent, then appends the reply and advances the
stage to `presentation`. -/
def service_info_node (llm : LLM) (state : AgentState) : Except AgentState AgentState :=
  let service_type := state.service_type.getD "General"
  match llm.invoke (service_info_messages state) with
  | .error _ => .error state
  | .ok content =>
    let ds := if state.discussed_services.contains service_type then
                state.discussed_services
              else
                state.discussed_services ++ [service_type]
    .ok { state with
            discussed_services := ds,
            messages := state.messages ++ [LCMessage.ai content],
            conversation_stage := "presentation" }

/-- The prompt composed by `qualification_node` (lines 249-265). -/
def qualification_messages (s : AgentState) : List LCMessage :=
  [LCMessage.system QUALIFICATION_PROMPT] ++
    (if s.customer_info.isEmpty && s.pain_points.isEmpty then [] else
      [LCMessage.system ("What we know: " ++
        (if s.customer_info.isEmpty then "" else
          "Company: " ++ py_repr_dict s.customer_info ++ ", ") ++
        (if s.pain_points.isEmpty then "" else
          "Challenges: " ++ py_repr_list s.pain_points))]) ++
    (match last_human s.messages with
     | some m => [m]
     | none => [])

/-- `qualification_node` of src/agents.py. -/
def qualification_node (llm : LLM) (state : AgentState) : Except AgentState AgentState :=
  match llm.invoke (qualification_messages state) with
  | .error _ => .error state
  | .ok content =>
    .ok { state with
            messages := state.messages ++ [LCMessage.ai content],
            conversation_stage := "qualification" }

/-- The prompt composed by `scheduling_node` (lines 279-286). -/
def scheduling_messages (s : AgentState) : List LCMessage :=
  [LCMessage.system SCHEDULING_PROMPT] ++
    (match last_human s.messages with
     | some m => [m]
     | none => [])

/-- `scheduling_node` of src/agents.py. -/
def scheduling_node (llm : LLM) (state : AgentState) : Except AgentState AgentState :=
  match llm.invoke (scheduling_messages state) with
  | .error _ => .error state
  | .ok content =>
    .ok { state with
            messages := state.messages ++ [LCMessage.ai content],
            conversation_stage := "closing",
            should_end := true }

/-- The prompt composed by `end_node` (lines 301-308). -/
def end_messages (s : AgentState) : List LCMessage :=
  [LCMessage.system END_CALL_PROMPT] ++
    (match last_human s.messages with
     | some m => [m]
     | none => [])

/-- `end_node` of src/agents.py. -/
def end_node (llm : LLM) (state : AgentState) : Except AgentState AgentState :=
  match llm.invoke (end_messages state) with
  | .error _ => .error state
  | .ok content =>
    .ok { state with
            messages := state.messages ++ [LCMessage.ai content],
            should_end := true }

/-- The `routing_map` of `route_supervisor` (src/agents.py lines 331-337). -/
def routing_map : List (String × String) :=
  [("gather_information", "gather_information"),
   ("provide_service_info", "service_info"),
   ("qualify_customer", "qualification"),
   ("schedule_callback", "scheduling"),
   ("end_call", "end")]

/-- `route_supervisor` of src/agents.py: `routing_map.get(next_worker, "service_info")`. -/
def route_supervisor (state : AgentState) : String :=
  (routing_map.lookup state.next_worker).getD "service_info"

/-- `should_continue` of src/agents.py: always ends the graph run after one
worker, so each `agent.invoke` is one supervisor decision plus one worker. -/
def should_continue (_state : AgentState) : String :=
  "end"

/-- Dispatch from the routing label to the bound worker node, per the
conditional edges of `create_agent` (src/agents.py lines 375-385).
`route_supervisor` only ever produces the five labels below. -/
def run_worker (llm : LLM) (node : String) (s : AgentState) : Except AgentState AgentState :=
  if node = "gather_information" then information_gathering_node llm s
  else if node = "service_info" then service_info_node llm s
  else if node = "qualification" then qualification_node llm s
  else if node = "scheduling" then scheduling_node llm s
  else end_node llm s

/-- One `agent.invoke`: entry point `supervisor`, conditional edge
`route_supervisor` to a worker, then END (`should_continue` is constantly
`"end"`). -/
def agent_invoke (llm : LLM) (s : AgentState) : Except AgentState AgentState :=
  match supervisor_node llm s with
  | .error s1 => .error s1
  | .ok s1 => run_worker llm (route_supervisor s1) s1

/-! ### `get_agent_response` (src/agents.py lines 424-483) -/

/-- Conversion of one legacy history entry to a LangChain message
(lines 442-447); entries with any other role are skipped. -/
def to_lc_message (m : ChatMsg) : Option LCMessage :=
  if m.role = "user" then some (LCMessage.human m.content)
  else if m.role = "assistant" then some (LCMessage.ai m.content)
  else none

/-- The initial `AgentState` built by `get_agent_response` (lines 452-466):
every turn starts from scratch, with `info_gathered`, `should_end` false and
`discussed_services` empty; only the message history is carried over. -/
def init_state (conversation_history : List ChatMsg) (user_message : String)
    (call_sid : String) : AgentState :=
  let messages := conversation_history.filterMap to_lc_message ++
    [LCMessage.human user_message]
  { messages := messages,
    next_worker := "gather_information",
    customer_info := [],
    pain_points := [],
    info_gathered := false,
    qualification_data := [],
    is_qualified_lead := false,
    discussed_services := [],
    conversation_stage := if messages.isEmpty then "greeting" else "ongoing",
    should_end := false,
    turn_count := (messages.filter LCMessage.is_human).length,
    call_sid := call_sid,
    service_type := none }

/-- The fixed apologetic fallback returned from the `except` branch
(src/agents.py line 483). -/
def FALLBACK_RESPONSE : String :=
  "I apologize, but I encountered an error. Could you please repeat that?"

/-- Returned when the run produced no `AIMessage` (src/agents.py line 479). -/
def NO_AI_RESPONSE : String :=
  "I didn't understand that. Could you please repeat?"

/-- `ai_messages[-1].content` when an `AIMessage` exists. -/
def last_ai_content (msgs : List LCMessage) : Option String :=
  (msgs.filterMap (fun m =>
    match m with
    | LCMessage.ai c => some c
    | _ => none)).getLast?

/-- `get_agent_response` of src/agents.py: builds a fresh state, invokes the
agent once, extracts the last AI message; any raised error yields the fixed
fallback string. -/
def get_agent_response (llm : LLM) (user_message : String)
    (conversation_history : List ChatMsg) (call_sid : String) : String :=
  match agent_invoke llm (init_state conversation_history user_message call_sid) with
  | .error _ => FALLBACK_RESPONSE
  | .ok result =>
    match last_ai_content result.messages with
    | some c => c
    | none => NO_AI_RESPONSE

/-! ### Session manager (src/session.py)

Wall-clock instants (`datetime.now()`) are modelled as `Int` values passed
explicitly (`now`); the timeout `timedelta` is an `Int` duration.  The
`_sessions` dict is an association list whose keys are unique, as Python dict
keys are. -/

/-- One value of `self._sessions`. -/
structure StoredSession where
  state : AgentState
  created_at : Int
  last_accessed : Int
deriving DecidableEq

structure SessionManager where
  sessions : List (String × StoredSession)
  timeout : Int
deriving DecidableEq

/-- The `initial_state` dict of `SessionManager.create_session` (lines 35-48). -/
def initial_state (call_sid : String) : AgentState :=
  { messages := [],
    next_worker := "gather_information",
    customer_info := [],
    pain_points := [],
    info_gathered := false,
    qualification_data := [],
    is_qualified_lead := false,
    discussed_services := [],
    conversation_stage := "greeting",
    should_end := false,
    turn_count := 0,
    call_sid := call_sid,
    service_type := none }

/-- Python dict assignment `d[k] = v` on an association list with unique keys:
replace in place when the key exists, append otherwise. -/
def dict_insert (l : List (String × StoredSession)) (k : String) (v : StoredSession) :
    List (String × StoredSession) :=
  if l.any (fun e => e.1 == k) then
    l.map (fun e => if e.1 = k then (k, v) else e)
  else
    l ++ [(k, v)]

/-- `SessionManager.create_session`: unconditionally assigns a fresh session
record, silently replacing any live one. -/
def create_session (m : SessionManager) (now : Int) (call_sid : String) :
    AgentState × SessionManager :=
  let entry : StoredSession :=
    { state := initial_state call_sid, created_at := now, last_accessed := now }
  (initial_state call_sid, { m with sessions := dict_insert m.sessions call_sid entry })

/-- `SessionManager.delete_session`: `del self._sessions[call_sid]` when present. -/
def delete_session (m : SessionManager) (call_sid : String) : SessionManager :=
  { m with sessions := m.sessions.filter (fun e => e.1 != call_sid) }

/-- `session["last_accessed"] = datetime.now()` on the matching entry. -/
def refresh_entry (now : Int) (call_sid : String) (e : String × StoredSession) :
    String × StoredSession :=
  if e.1 = call_sid then (e.1, { e.2 with last_accessed := now }) else e

/-- `SessionManager.get_session`: `None` when absent; expired sessions
(idle strictly longer than the timeout) are deleted and `None` returned;
otherwise the last-accessed timestamp is refreshed and the state returned. -/
def get_session (m : SessionManager) (now : Int) (call_sid : String) :
    Option AgentState × SessionManager :=
  match m.sessions.lookup call_sid with
  | none => (none, m)
  | some sess =>
    if now - sess.last_accessed > m.timeout then
      (none, delete_session m call_sid)
    else
      (some sess.state,
       { m with sessions := m.sessions.map (refresh_entry now call_sid) })

/-- `SessionManager.update_session`: writes state and refreshes the timestamp
when the session exists, and is a no-op otherwise. -/
def update_session (m : SessionManager) (now : Int) (call_sid : String)
    (state : AgentState) : SessionManager :=
  { m with sessions := m.sessions.map (fun e =>
      if e.1 = call_sid then (e.1, { e.2 with state := state, last_accessed := now }) else e) }

/-- Whether an entry is expired at `now` (`now - session["last_accessed"] > self._timeout`). -/
def session_expired (timeout : Int) (now : Int) (e : String × StoredSession) : Bool :=
  decide (now - e.2.last_accessed > timeout)

/-- `SessionManager.cleanup_expired_sessions`: collects the expired call ids,
deletes each, and returns how many were collected. -/
def cleanup_expired_sessions (m : SessionManager) (now : Int) : Nat × SessionManager :=
  let expired := (m.sessions.filter (session_expired m.timeout now)).map (fun e => e.1)
  (expired.length, expired.foldl (fun acc call_sid => delete_session acc call_sid) m)

/-- `SessionManager.get_active_session_count`. -/
def get_active_session_count (m : SessionManager) : Nat :=
  m.sessions.length

/-! ### WebSocket turn loop (src/main.py)

A session of `SESSIONS` is its `history` list (the `call_sid` and
`phone_number` fields are never read by the turn loop).  An inbound frame is
either text that fails `json.loads` or a parsed JSON value. -/

/-- A JSON value, as produced by `json.loads`. -/
inductive Json where
  | str (s : String)
  | num (n : Int)
  | boolVal (b : Bool)
  | null
  | arr (elems : List Json)
  | obj (fields : List (String × Json))

/-- `msg.get(k)` for a JSON object. -/
def jget (j : Json) (k : String) : Option Json :=
  match j with
  | Json.obj fields => fields.lookup k
  | _ => none

/-- Python's `str.strip()`: leading and trailing whitespace removed. -/
def py_strip (s : String) : String :=
  String.mk (((s.data.dropWhile Char.isWhitespace).reverse.dropWhile Char.isWhitespace).reverse)

/-- The text-extraction logic of src/main.py lines 173-187, for a parsed JSON
object: first a non-blank string `voicePrompt`, else
`result.alternatives[0].transcript` when `result` is a dict, `alternatives` a
non-empty list whose head is a dict and `transcript` a non-blank string. -/
def extract_from_obj (msg : Json) : Option String :=
  let from_prompt : Option String :=
    match jget msg "voicePrompt" with
    | some (Json.str s) => if py_strip s = "" then none else some (py_strip s)
    | _ => none
  match from_prompt with
  | some t => some t
  | none =>
    match jget msg "result" with
    | some (Json.obj rfields) =>
      match rfields.lookup "alternatives" with
      | some (Json.arr (a :: _)) =>
        match a with
        | Json.obj afields =>
          match afields.lookup "transcript" with
          | some (Json.str t) => if py_strip t = "" then none else some (py_strip t)
          | _ => none
        | _ => none
      | _ => none
    | _ => none

/-- Text extraction over any parsed JSON value.  When the top-level value is
not a dict, the source raises (`msg.get` on a non-dict is an
`AttributeError`, `msg["voicePrompt"]` on a list or string a `TypeError`, `in`
on a number a `TypeError`); the exception reaches the handler's outer
`except Exception` and ends the receive loop, modelled by `.error`. -/
def extract_user_text (msg : Json) : Except Unit (Option String) :=
  match msg with
  | Json.obj _ => .ok (extract_from_obj msg)
  | _ => .error ()

/-- One inbound WebSocket frame: raw text that is not valid JSON, or its
parsed value. -/
inductive Payload where
  | malformed (raw : String)
  | json (j : Json)

/-- What `websocket_endpoint` does with one frame: either the loop continues
(with the updated history and the outbound text, if any, that was sent), or an
unhandled exception ends the handler. -/
inductive StepResult where
  | looped (history : List ChatMsg) (sent : Option String)
  | closed (history : List ChatMsg)

def step_history : StepResult → List ChatMsg
  | .looped h _ => h
  | .closed h => h

def step_sent : StepResult → Option String
  | .looped _ s => s
  | .closed _ => none

/-- One iteration of the receive loop of `websocket_endpoint`
(src/main.py lines 161-211): a `json.JSONDecodeError` skips the frame; a frame
with no extractable text is logged and skipped; otherwise the user entry is
appended, the agent invoked (with the already-updated history, and the default
`call_sid="unknown"`), the reply appended and sent. -/
def websocket_turn (llm : LLM) (history : List ChatMsg) (p : Payload) : StepResult :=
  match p with
  | .malformed _ => .looped history none
  | .json j =>
    match extract_user_text j with
    | .error _ => .closed history
    | .ok none => .looped history none
    | .ok (some user_text) =>
      let h1 := history ++ [{ role := "user", content := user_text }]
      let agent_response := get_agent_response llm user_text h1 "unknown"
      .looped (h1 ++ [{ role := "assistant", content := agent_response }]) (some agent_response)

/-- The receive loop over a sequence of inbound frames, stopping when the
handler dies on an exception. -/
def run_ws (llm : LLM) : List Payload → List ChatMsg → List ChatMsg
  | [], h => h
  | p :: ps, h =>
    match websocket_turn llm h p with
    | .looped h1 _ => run_ws llm ps h1
    | .closed h1 => h1

/-- The extraction outcome of a frame (it depends on the frame alone): a
malformed frame is skipped like a frame without text. -/
def extract_payload : Payload → Except Unit (Option String)
  | .malformed _ => .ok none
  | .json j => extract_user_text j

/-- How many of the frames are processed as user utterances before the handler
dies (if it does). -/
def processed_count : List Payload → Nat
  | [] => 0
  | p :: ps =>
    match extract_payload p with
    | .error _ => 0
    | .ok none => processed_count ps
    | .ok (some _) => 1 + processed_count ps

/-! ### Concrete language-model behaviours used in witnesses -/

/-- A classifier that always chooses `gather_information`; workers always get
the reply `"ok"`. -/
def gather_llm : LLM :=
  { invoke_with_tools := fun _ => .ok [{ name := "gather_information", args_service_type := none }],
    invoke := fun _ => .ok "ok" }

/-- A classifier that always chooses `qualify_customer`. -/
def qualify_llm : LLM :=
  { invoke_with_tools := fun _ => .ok [{ name := "qualify_customer", args_service_type := none }],
    invoke := fun _ => .ok "ok" }

/-- A provider that fails (times out) on every call. -/
def fail_llm : LLM :=
  { invoke_with_tools := fun _ => .error (),
    invoke := fun _ => .error () }

/-- A classifier that returns no tool call at all. -/
def no_tool_llm : LLM :=
  { invoke_with_tools := fun _ => .ok [],
    invoke := fun _ => .ok "ok" }

/-! ### Concrete fixtures used in witnesses and counterexamples -/

/-- A state in which the supervisor stored `service_type = "AI"`. -/
def svc_state : AgentState :=
  { initial_state "w" with service_type := some "AI" }

/-- A state whose `should_end` flag is set. -/
def end_state : AgentState :=
  { initial_state "cex" with should_end := true }

/-- A store with one fresh session (`"a"`, last accessed at 0) and one stale
session (`"b"`, last accessed at -1000), timeout 300. -/
def demo_manager : SessionManager :=
  { sessions :=
      [("a", { state := initial_state "a", created_at := 0, last_accessed := 0 }),
       ("b", { state := initial_state "b", created_at := -1000, last_accessed := -1000 })],
    timeout := 300 }

/-- A frame carrying the transcribed text `"hi"`. -/
def voice_payload : Payload :=
  Payload.json (Json.obj [("voicePrompt", Json.str "hi")])

/-- A frame that is not valid JSON. -/
def bad_payload : Payload :=
  Payload.malformed "oops"

/-- A frame that is valid JSON but not an object (raises in the handler). -/
def crash_payload : Payload :=
  Payload.json (Json.arr [])

/-! ### Association-list lemmas (Python dict behaviour) -/

theorem lookup_map_refresh (l : List (String × StoredSession)) (k : String) (now : Int) :
    (l.map (refresh_entry now k)).lookup k =
      (l.lookup k).map (fun v => { v with last_accessed := now }) := by
  induction l with
  | nil => simp [List.lookup]
  | cons e es ih =>
    obtain ⟨k', v'⟩ := e
    simp only [List.map_cons]
    by_cases he : k' = k
    · subst he
      rw [show refresh_entry now k' (k', v') = (k', { v' with last_accessed := now }) from
        if_pos rfl]
      simp [List.lookup]
    · rw [show refresh_entry now k (k', v') = (k', v') from if_neg he]
      have hbeq : (k == k') = false := by simpa using Ne.symm he
      simp [List.lookup, hbeq, ih]

theorem lookup_filter_ne (l : List (String × StoredSession)) (k : String) :
    (l.filter (fun e => e.1 != k)).lookup k = none := by
  induction l with
  | nil => simp [List.lookup]
  | cons e es ih =>
    obtain ⟨k', v'⟩ := e
    by_cases he : k' = k
    · subst he
      have hne : ((k', v').1 != k') = false := by simp
      simp [List.filter_cons, hne, ih]
    · have hne : ((k', v').1 != k) = true := by simpa using he
      have hbeq : (k == k') = false := by simpa using Ne.symm he
      simp [List.filter_cons, hne, List.lookup, hbeq, ih]

theorem lookup_map_set (l : List (String × StoredSession)) (k : String)
    (v : StoredSession) (h : l.any (fun e => e.1 == k) = true) :
    (l.map (fun e => if e.1 = k then (k, v) else e)).lookup k = some v := by
  induction l with
  | nil => simp at h
  | cons e es ih =>
    obtain ⟨k', v'⟩ := e
    simp only [List.map_cons]
    by_cases he : k' = k
    · subst he
      rw [if_pos rfl]
      simp [List.lookup]
    · rw [if_neg he]
      have hbeq : (k == k') = false := by simpa using Ne.symm he
      have hany : es.any (fun e => e.1 == k) = true := by
        simpa [List.any_cons, show ((k', v').1 == k) = false from by simpa using he] using h
      simp [List.lookup, hbeq, ih hany]

theorem lookup_of_any_eq_false (l : List (String × StoredSession)) (k : String)
    (h : l.any (fun e => e.1 == k) = false) : l.lookup k = none := by
  induction l with
  | nil => simp [List.lookup]
  | cons e es ih =>
    obtain ⟨k', v'⟩ := e
    simp only [List.any_cons, Bool.or_eq_false_iff] at h
    have hbeq : (k == k') = false := by
      have : k' ≠ k := by simpa using h.1
      simpa using Ne.symm this
    simp [List.lookup, hbeq, ih h.2]

theorem lookup_append_singleton (l : List (String × StoredSession)) (k : String)
    (v : StoredSession) (h : l.lookup k = none) :
    (l ++ [(k, v)]).lookup k = some v := by
  induction l with
  | nil => simp [List.lookup]
  | cons e es ih =>
    obtain ⟨k', v'⟩ := e
    cases hbeq : (k == k') with
    | true => simp [List.lookup, hbeq] at h
    | false =>
      simp only [List.lookup, hbeq] at h
      simpa [List.cons_append, List.lookup, hbeq] using ih h

theorem lookup_dict_insert (l : List (String × StoredSession)) (k : String)
    (v : StoredSession) :
    (dict_insert l k v).lookup k = some v := by
  unfold dict_insert
  split
  · exact lookup_map_set l k v (by assumption)
  · rename_i hany
    exact lookup_append_singleton l k v
      (lookup_of_any_eq_false l k (eq_false_of_ne_true hany))

/-! ### C10: `create_session` never fails and silently resets -/

/-- C10: `create_session` is total: for every store and `callId` (also one
already holding a live session) it returns the fresh initial state — empty
messages, stage `greeting`, `turn_count` 0, all flags false — and the store
afterwards maps the `callId` to that fresh session, rather than any
`AlreadyExists` error being raised. -/
theorem create_session_silently_resets (m : SessionManager) (now : Int)
    (call_sid : String) :
    (create_session m now call_sid).1 = initial_state call_sid ∧
    (create_session m now call_sid).2.sessions.lookup call_sid =
      some { state := initial_state call_sid, created_at := now, last_accessed := now } ∧
    (initial_state call_sid).messages = [] ∧
    (initial_state call_sid).conversation_stage = "greeting" ∧
    (initial_state call_sid).turn_count = 0 ∧
    (initial_state call_sid).info_gathered = false ∧
    (initial_state call_sid).should_end = false ∧
    (initial_state call_sid).is_qualified_lead = false :=
  ⟨rfl, lookup_dict_insert m.sessions call_sid _, rfl, rfl, rfl, rfl, rfl, rfl⟩

/-! ### Inversion lemmas for the supervisor and the worker nodes -/

theorem apply_tool_calls_fields (s : AgentState) (tcs : List ToolCall) :
    (apply_tool_calls s tcs).messages = s.messages ∧
    (apply_tool_calls s tcs).customer_info = s.customer_info ∧
    (apply_tool_calls s tcs).info_gathered = s.info_gathered ∧
    (apply_tool_calls s tcs).discussed_services = s.discussed_services ∧
    (apply_tool_calls s tcs).conversation_stage = s.conversation_stage := by
  cases tcs with
  | nil => simp [apply_tool_calls]
  | cons tc rest => cases h : tc.args_service_type <;> simp [apply_tool_calls, h]

theorem supervisor_node_error_eq (llm : LLM) (s s' : AgentState)
    (h : supervisor_node llm s = .error s') : s' = s := by
  unfold supervisor_node at h
  cases hc : llm.invoke_with_tools (supervisor_messages s) with
  | error e =>
    rw [hc] at h
    simpa using h.symm
  | ok tcs =>
    rw [hc] at h
    simp at h

theorem supervisor_node_ok_eq (llm : LLM) (s s' : AgentState)
    (h : supervisor_node llm s = .ok s') :
    ∃ tcs, llm.invoke_with_tools (supervisor_messages s) = .ok tcs ∧
      s' = apply_tool_calls s tcs := by
  unfold supervisor_node at h
  cases hc : llm.invoke_with_tools (supervisor_messages s) with
  | error e =>
    rw [hc] at h
    simp at h
  | ok tcs =>
    rw [hc] at h
    exact ⟨tcs, rfl, by simpa using h.symm⟩

theorem information_gathering_node_error_eq (llm : LLM) (s s' : AgentState)
    (h : information_gathering_node llm s = .error s') : s' = s := by
  unfold information_gathering_node at h
  by_cases hg : s.info_gathered
  · simp [hg] at h
  · simp only [hg, Bool.false_eq_true, if_false] at h
    cases hi : llm.invoke (gathering_messages s) with
    | error e =>
      rw [hi] at h
      simpa using h.symm
    | ok c =>
      rw [hi] at h
      simp at h

theorem information_gathering_node_ok_cases (llm : LLM) (s s' : AgentState)
    (h : information_gathering_node llm s = .ok s') :
    (s.info_gathered = true ∧ s' = { s with next_worker := "provide_service_info" }) ∨
    (s.info_gathered = false ∧ ∃ c, llm.invoke (gathering_messages s) = .ok c ∧
      s' = { s with messages := s.messages ++ [LCMessage.ai c],
                    info_gathered := true, conversation_stage := "discovery" }) := by
  unfold information_gathering_node at h
  by_cases hg : s.info_gathered
  · exact Or.inl ⟨hg, by simpa [hg] using h.symm⟩
  · refine Or.inr ⟨by simpa using hg, ?_⟩
    simp only [hg, Bool.false_eq_true, if_false] at h
    cases hi : llm.invoke (gathering_messages s) with
    | error e =>
      rw [hi] at h
      simp at h
    | ok c =>
      rw [hi] at h
      exact ⟨c, rfl, by simpa using h.symm⟩

theorem service_info_node_error_eq (llm : LLM) (s s' : AgentState)
    (h : service_info_node llm s = .error s') : s' = s := by
  unfold service_info_node at h
  cases hi : llm.invoke (service_info_messages s) with
  | error e =>
    rw [hi] at h
    simpa using h.symm
  | ok c =>
    rw [hi] at h
    simp at h

theorem service_info_node_ok_eq (llm : LLM) (s s' : AgentState)
    (h : service_info_node llm s = .ok s') :
    ∃ c, llm.invoke (service_info_messages s) = .ok c ∧
      s' = { s with
        discussed_services :=
          if s.discussed_services.contains (s.service_type.getD "General") then
            s.discussed_services
          else
            s.discussed_services ++ [s.service_type.getD "General"],
        messages := s.messages ++ [LCMessage.ai c],
        conversation_stage := "presentation" } := by
  unfold service_info_node at h
  cases hi : llm.invoke (service_info_messages s) with
  | error e =>
    rw [hi] at h
    simp at h
  | ok c =>
    rw [hi] at h
    exact ⟨c, rfl, by simpa using h.symm⟩

theorem qualification_node_error_eq (llm : LLM) (s s' : AgentState)
    (h : qualification_node llm s = .error s') : s' = s := by
  unfold qualification_node at h
  cases hi : llm.invoke (qualification_messages s) with
  | error e =>
    rw [hi] at h
    simpa using h.symm
  | ok c =>
    rw [hi] at h
    simp at h

theorem qualification_node_ok_eq (llm : LLM) (s s' : AgentState)
    (h : qualification_node llm s = .ok s') :
    ∃ c, s' = { s with messages := s.messages ++ [LCMessage.ai c],
                       conversation_stage := "qualification" } := by
  unfold qualification_node at h
  cases hi : llm.invoke (qualification_messages s) with
  | error e =>
    rw [hi] at h
    simp at h
  | ok c =>
    rw [hi] at h
    exact ⟨c, by simpa using h.symm⟩

theorem scheduling_node_error_eq (llm : LLM) (s s' : AgentState)
    (h : scheduling_node llm s = .error s') : s' = s := by
  unfold scheduling_node at h
  cases hi : llm.invoke (scheduling_messages s) with
  | error e =>
    rw [hi] at h
    simpa using h.symm
  | ok c =>
    rw [hi] at h
    simp at h

theorem scheduling_node_ok_eq (llm : LLM) (s s' : AgentState)
    (h : scheduling_node llm s = .ok s') :
    ∃ c, s' = { s with messages := s.messages ++ [LCMessage.ai c],
                       conversation_stage := "closing", should_end := true } := by
  unfold scheduling_node at h
  cases hi : llm.invoke (scheduling_messages s) with
  | error e =>
    rw [hi] at h
    simp at h
  | ok c =>
    rw [hi] at h
    exact ⟨c, by simpa using h.symm⟩

theorem end_node_error_eq (llm : LLM) (s s' : AgentState)
    (h : end_node llm s = .error s') : s' = s := by
  unfold end_node at h
  cases hi : llm.invoke (end_messages s) with
  | error e =>
    rw [hi] at h
    simpa using h.symm
  | ok c =>
    rw [hi] at h
    simp at h

theorem end_node_ok_eq (llm : LLM) (s s' : AgentState)
    (h : end_node llm s = .ok s') :
    ∃ c, s' = { s with messages := s.messages ++ [LCMessage.ai c],
                       should_end := true } := by
  unfold end_node at h
  cases hi : llm.invoke (end_messages s) with
  | error e =>
    rw [hi] at h
    simp at h
  | ok c =>
    rw [hi] at h
    exact ⟨c, by simpa using h.symm⟩

theorem run_worker_error_eq (llm : LLM) (node : String) (s s' : AgentState)
    (h : run_worker llm node s = .error s') : s' = s := by
  unfold run_worker at h
  split_ifs at h
  · exact information_gathering_node_error_eq llm s s' h
  · exact service_info_node_error_eq llm s s' h
  · exact qualification_node_error_eq llm s s' h
  · exact scheduling_node_error_eq llm s s' h
  · exact end_node_error_eq llm s s' h

/-! ### C8: default decision and default routing -/

/-- C8: when the classifier's response carries no tool call, `supervisor_node`
keeps the default decision `provide_service_info` (which `route_supervisor`
sends to the `service_info` worker); and `route_supervisor` maps every label
outside the fixed routing table to `service_info`. -/
theorem classifier_default_service_info (llm : LLM) (s : AgentState) :
    (llm.invoke_with_tools (supervisor_messages s) = .ok [] →
      supervisor_node llm s = .ok { s with next_worker := "provide_service_info" } ∧
      route_supervisor { s with next_worker := "provide_service_info" } = "service_info") ∧
    (∀ label, label ∉ ["gather_information", "provide_service_info", "qualify_customer",
        "schedule_callback", "end_call"] →
      route_supervisor { s with next_worker := label } = "service_info") := by
  constructor
  · intro h
    refine ⟨?_, rfl⟩
    simp [supervisor_node, h, apply_tool_calls]
  · intro label hlab
    simp only [List.mem_cons, List.not_mem_nil, or_false, not_or] at hlab
    obtain ⟨h1, h2, h3, h4, h5⟩ := hlab
    have b1 : (label == "gather_information") = false := by simpa using h1
    have b2 : (label == "provide_service_info") = false := by simpa using h2
    have b3 : (label == "qualify_customer") = false := by simpa using h3
    have b4 : (label == "schedule_callback") = false := by simpa using h4
    have b5 : (label == "end_call") = false := by simpa using h5
    simp [route_supervisor, routing_map, List.lookup, b1, b2, b3, b4, b5]

/-- Witness for C8 at a concrete state: an empty tool-call list defaults to
`provide_service_info` and routes to `service_info`; the unknown label
`"bogus"` also routes to `service_info`. -/
theorem classifier_default_service_info_witness :
    (supervisor_node no_tool_llm (initial_state "w") =
        .ok { initial_state "w" with next_worker := "provide_service_info" } ∧
      route_supervisor { initial_state "w" with next_worker := "provide_service_info" } =
        "service_info") ∧
    route_supervisor { initial_state "w" with next_worker := "bogus" } = "service_info" :=
  ⟨(classifier_default_service_info no_tool_llm (initial_state "w")).1 rfl,
   (classifier_default_service_info no_tool_llm (initial_state "w")).2 "bogus" (by decide)⟩

/-! ### C5: the discovery handler -/

/-- C5: with `infoGathered` already true, `information_gathering_node` is a
pure pass-through — the returned state is the input state with only the
routing hint `next_worker` reset, so messages, stage and all flags are
unchanged and no output is generated; with `infoGathered` false it invokes the
model once on the fixed template plus the latest utterance, appends the single
reply to the history, sets `infoGathered` and advances the stage to
`discovery`. -/
theorem discovery_node_spec (llm : LLM) (s : AgentState) :
    (s.info_gathered = true →
      information_gathering_node llm s = .ok { s with next_worker := "provide_service_info" }) ∧
    (s.info_gathered = false → ∀ reply, llm.invoke (gathering_messages s) = .ok reply →
      information_gathering_node llm s =
        .ok { s with messages := s.messages ++ [LCMessage.ai reply],
                     info_gathered := true, conversation_stage := "discovery" }) := by
  constructor
  · intro h
    simp [information_gathering_node, h]
  · intro h reply hr
    simp [information_gathering_node, h, hr]

/-- Witness for C5: both branches at concrete states. -/
theorem discovery_node_spec_witness :
    information_gathering_node gather_llm { initial_state "w" with info_gathered := true } =
      .ok { { initial_state "w" with info_gathered := true } with
              next_worker := "provide_service_info" } ∧
    information_gathering_node gather_llm (initial_state "w") =
      .ok { initial_state "w" with
              messages := (initial_state "w").messages ++ [LCMessage.ai "ok"],
              info_gathered := true, conversation_stage := "discovery" } :=
  ⟨(discovery_node_spec gather_llm _).1 rfl,
   (discovery_node_spec gather_llm _).2 rfl "ok" rfl⟩

/-! ### C6: the service-info handler and `discussed_services` -/

theorem service_info_node_nodup (llm : LLM) (s s' : AgentState)
    (h : service_info_node llm s = .ok s') (hnd : s.discussed_services.Nodup) :
    s'.discussed_services.Nodup := by
  obtain ⟨c, _, rfl⟩ := service_info_node_ok_eq llm s s' h
  cases hc : s.discussed_services.contains (s.service_type.getD "General") with
  | true => simpa [hc] using hnd
  | false =>
    have hmem : (s.service_type.getD "General") ∉ s.discussed_services := by simpa using hc
    simp [hc, List.nodup_append, hmem, hnd]

theorem run_worker_nodup (llm : LLM) (node : String) (s s' : AgentState)
    (h : run_worker llm node s = .ok s') (hnd : s.discussed_services.Nodup) :
    s'.discussed_services.Nodup := by
  unfold run_worker at h
  split_ifs at h
  · rcases information_gathering_node_ok_cases llm s s' h with ⟨_, rfl⟩ | ⟨_, c, _, rfl⟩ <;>
      simpa using hnd
  · exact service_info_node_nodup llm s s' h hnd
  · obtain ⟨c, rfl⟩ := qualification_node_ok_eq llm s s' h
    simpa using hnd
  · obtain ⟨c, rfl⟩ := scheduling_node_ok_eq llm s s' h
    simpa using hnd
  · obtain ⟨c, rfl⟩ := end_node_ok_eq llm s s' h
    simpa using hnd

theorem agent_invoke_nodup (llm : LLM) (s s' : AgentState)
    (h : agent_invoke llm s = .ok s') (hnd : s.discussed_services.Nodup) :
    s'.discussed_services.Nodup := by
  unfold agent_invoke at h
  cases hs : supervisor_node llm s with
  | error s1 =>
    rw [hs] at h
    simp at h
  | ok s1 =>
    rw [hs] at h
    obtain ⟨tcs, _, rfl⟩ := supervisor_node_ok_eq llm s s1 hs
    have hds := (apply_tool_calls_fields s tcs).2.2.2.1
    exact run_worker_nodup llm _ _ s' h (by rwa [hds])

/-- C6: `service_info_node` records the selected `serviceType` (default
`General` when the supervisor stored none) into `discussedServices` only when
it is not already present, and advances the stage to `presentation`; hence it
preserves duplicate-freeness of `discussedServices`, and so does a whole agent
invocation. -/
theorem service_info_no_duplicates (llm : LLM) (s : AgentState) :
    (∀ reply, llm.invoke (service_info_messages s) = .ok reply →
      service_info_node llm s = .ok { s with
        discussed_services :=
          if s.discussed_services.contains (s.service_type.getD "General") then
            s.discussed_services
          else
            s.discussed_services ++ [s.service_type.getD "General"],
        messages := s.messages ++ [LCMessage.ai reply],
        conversation_stage := "presentation" }) ∧
    (∀ s', service_info_node llm s = .ok s' → s.discussed_services.Nodup →
      s'.discussed_services.Nodup) ∧
    (∀ s', agent_invoke llm s = .ok s' → s.discussed_services.Nodup →
      s'.discussed_services.Nodup) := by
  refine ⟨?_, fun s' h hnd => service_info_node_nodup llm s s' h hnd,
    fun s' h hnd => agent_invoke_nodup llm s s' h hnd⟩
  intro reply hr
  simp [service_info_node, hr]

/-- Witness for C6 at a concrete state with `service_type = "AI"` and a reply
`"ok"`. -/
theorem service_info_no_duplicates_witness :
    service_info_node gather_llm svc_state = .ok { svc_state with
      discussed_services :=
        if svc_state.discussed_services.contains (svc_state.service_type.getD "General") then
          svc_state.discussed_services
        else
          svc_state.discussed_services ++ [svc_state.service_type.getD "General"],
      messages := svc_state.messages ++ [LCMessage.ai "ok"],
      conversation_stage := "presentation" } :=
  (service_info_no_duplicates gather_llm svc_state).1 "ok" rfl

/-! ### C3: a failed model call yields the fallback and leaves the state intact -/

/-- In every handler the model call precedes all state mutation, so a raise at
any point leaves `stage`, `infoGathered`, `customerInfo` and
`discussedServices` at their pre-call values (the supervisor, which may have
run before the failing worker, touches only `next_worker`/`service_type`). -/
theorem agent_invoke_error_frame (llm : LLM) (s s' : AgentState)
    (h : agent_invoke llm s = .error s') :
    s'.conversation_stage = s.conversation_stage ∧
    s'.info_gathered = s.info_gathered ∧
    s'.customer_info = s.customer_info ∧
    s'.discussed_services = s.discussed_services := by
  unfold agent_invoke at h
  cases hs : supervisor_node llm s with
  | error s1 =>
    rw [hs] at h
    have h1 : s1 = s := supervisor_node_error_eq llm s s1 hs
    have h2 : s' = s1 := by simpa using h.symm
    rw [h2, h1]
    exact ⟨rfl, rfl, rfl, rfl⟩
  | ok s1 =>
    rw [hs] at h
    have h1 : s' = s1 := run_worker_error_eq llm _ s1 s' h
    obtain ⟨tcs, _, rfl⟩ := supervisor_node_ok_eq llm s s1 hs
    obtain ⟨_, hc, hi, hd, hst⟩ := apply_tool_calls_fields s tcs
    rw [h1]
    exact ⟨hst, hi, hc, hd⟩

/-- C3: when the model invocation fails anywhere inside the turn, the turn's
result is the fixed apologetic fallback string, and the state at the moment of
the raise agrees with the freshly built pre-call state on `stage`,
`infoGathered`, `customerInfo` and `discussedServices` — nothing of the failed
turn is persisted. -/
theorem llm_failure_fallback_and_frame (llm : LLM) (user_message : String)
    (conversation_history : List ChatMsg) (call_sid : String) (s' : AgentState)
    (h : agent_invoke llm (init_state conversation_history user_message call_sid) =
      .error s') :
    get_agent_response llm user_message conversation_history call_sid = FALLBACK_RESPONSE ∧
    s'.conversation_stage =
      (init_state conversation_history user_message call_sid).conversation_stage ∧
    s'.info_gathered =
      (init_state conversation_history user_message call_sid).info_gathered ∧
    s'.customer_info =
      (init_state conversation_history user_message call_sid).customer_info ∧
    s'.discussed_services =
      (init_state conversation_history user_message call_sid).discussed_services := by
  have hf := agent_invoke_error_frame llm _ s' h
  exact ⟨by simp [get_agent_response, h], hf.1, hf.2.1, hf.2.2.1, hf.2.2.2⟩

/-- Witness for C3: a provider that fails every call makes the turn return the
fallback string. -/
theorem llm_failure_fallback_witness :
    get_agent_response fail_llm "hi" [] "w" = FALLBACK_RESPONSE :=
  (llm_failure_fallback_and_frame fail_llm "hi" [] "w" (init_state [] "hi" "w") rfl).1

/-! ### C1: `shouldEnd` and the routing decision -/

/-- C1 counterexample: in a state with `should_end = true`, a classifier
choosing `qualify_customer` makes the supervisor route to the qualification
handler — not to the end handler — so `shouldEnd` does not force the route. -/
theorem should_end_not_forced_to_end_cex :
    end_state.should_end = true ∧
    supervisor_node qualify_llm end_state =
      .ok { end_state with next_worker := "qualify_customer" } ∧
    route_supervisor { end_state with next_worker := "qualify_customer" } = "qualification" ∧
    "qualification" ≠ "end" :=
  ⟨rfl, rfl, rfl, by decide⟩

/-- C1 (amended): neither `supervisor_node` nor `route_supervisor` consults
`should_end` — the decision and the route are a function of the classifier's
output alone (first tool call's label through the fixed table, default
`provide_service_info`), so a state with `shouldEnd` true is routed wherever
the classifier points; moreover `get_agent_response` rebuilds the state with
`should_end = false` on every turn, so a true `shouldEnd` does not even
persist to later turns of the same `callId`. -/
theorem supervisor_ignores_should_end (llm : LLM) (s : AgentState) (b : Bool) :
    (∀ s1, supervisor_node llm s = .ok s1 →
      supervisor_node llm { s with should_end := b } = .ok { s1 with should_end := b } ∧
      route_supervisor { s1 with should_end := b } = route_supervisor s1) ∧
    (∀ h m sid, (init_state h m sid).should_end = false) := by
  constructor
  · intro s1 h
    obtain ⟨tcs, hc, rfl⟩ := supervisor_node_ok_eq llm s s1 h
    refine ⟨?_, rfl⟩
    have hmsgs : supervisor_messages { s with should_end := b } = supervisor_messages s := rfl
    unfold supervisor_node
    rw [hmsgs, hc]
    cases tcs with
    | nil => rfl
    | cons tc rest => cases h2 : tc.args_service_type <;> simp [apply_tool_calls, h2]
  · intro h m sid
    rfl

/-- Witness for C1's amended statement at a concrete state and classifier. -/
theorem supervisor_ignores_should_end_witness :
    supervisor_node qualify_llm { initial_state "cex" with should_end := true } =
      .ok { { initial_state "cex" with next_worker := "qualify_customer" } with
              should_end := true } ∧
    route_supervisor { { initial_state "cex" with next_worker := "qualify_customer" } with
        should_end := true } =
      route_supervisor { initial_state "cex" with next_worker := "qualify_customer" } :=
  (supervisor_ignores_should_end qualify_llm (initial_state "cex") true).1
    { initial_state "cex" with next_worker := "qualify_customer" } rfl

/-! ### C2: the `infoGathered` flag across turns -/

/-- C2 counterexample, on the real turn pipeline: with a classifier that
always picks `gather_information`, the first processed turn ends with
`info_gathered = true`, yet the state `get_agent_response` builds for the next
turn of the same call has `info_gathered = false` again (a true-to-false reset
across turns), and the second turn flips it false-to-true a second time. -/
theorem info_gathered_reset_cex :
    (agent_invoke gather_llm
        (init_state [{ role := "user", content := "hi" }] "hi" "unknown")).map
      AgentState.info_gathered = .ok true ∧
    websocket_turn gather_llm [] voice_payload =
      .looped [{ role := "user", content := "hi" }, { role := "assistant", content := "ok" }]
        (some "ok") ∧
    (init_state [{ role := "user", content := "hi" }, { role := "assistant", content := "ok" },
        { role := "user", content := "hi" }] "hi" "unknown").info_gathered = false ∧
    (agent_invoke gather_llm
        (init_state [{ role := "user", content := "hi" }, { role := "assistant", content := "ok" },
          { role := "user", content := "hi" }] "hi" "unknown")).map
      AgentState.info_gathered = .ok true :=
  ⟨rfl, rfl, rfl, rfl⟩

theorem run_worker_info_mono (llm : LLM) (node : String) (s s' : AgentState)
    (h : run_worker llm node s = .ok s') (hg : s.info_gathered = true) :
    s'.info_gathered = true := by
  unfold run_worker at h
  split_ifs at h
  · rcases information_gathering_node_ok_cases llm s s' h with ⟨_, rfl⟩ | ⟨hf, _⟩
    · simpa using hg
    · rw [hg] at hf
      cases hf
  · obtain ⟨c, _, rfl⟩ := service_info_node_ok_eq llm s s' h
    simpa using hg
  · obtain ⟨c, rfl⟩ := qualification_node_ok_eq llm s s' h
    simpa using hg
  · obtain ⟨c, rfl⟩ := scheduling_node_ok_eq llm s s' h
    simpa using hg
  · obtain ⟨c, rfl⟩ := end_node_ok_eq llm s s' h
    simpa using hg

/-- C2 (amended): within one agent invocation `info_gathered` never
transitions true-to-false (whether the run completes or raises); but
`get_agent_response` reinitializes the flag to false for every turn, so across
the turns of one `callId` the flag resets instead of persisting — the
exactly-once, never-reset property holds only within a single turn. -/
theorem info_gathered_monotone_within_turn (llm : LLM) (s : AgentState) :
    (∀ s', agent_invoke llm s = .ok s' → s.info_gathered = true →
      s'.info_gathered = true) ∧
    (∀ s', agent_invoke llm s = .error s' → s.info_gathered = true →
      s'.info_gathered = true) ∧
    (∀ h m sid, (init_state h m sid).info_gathered = false) := by
  refine ⟨?_, ?_, fun h m sid => rfl⟩
  · intro s' h hg
    unfold agent_invoke at h
    cases hs : supervisor_node llm s with
    | error s1 =>
      rw [hs] at h
      simp at h
    | ok s1 =>
      rw [hs] at h
      obtain ⟨tcs, _, rfl⟩ := supervisor_node_ok_eq llm s s1 hs
      have hi := (apply_tool_calls_fields s tcs).2.2.1
      exact run_worker_info_mono llm _ _ s' h (by rwa [hi])
  · intro s' h hg
    have := (agent_invoke_error_frame llm s s' h).2.1
    rwa [hg] at this

/-- Witness for C2's amended statement: a turn that starts with the flag set
keeps it set, and every freshly built turn state starts with it unset. -/
theorem info_gathered_monotone_witness :
    ({ { initial_state "w" with info_gathered := true } with
        next_worker := "provide_service_info" } : AgentState).info_gathered = true ∧
    (init_state [] "hi" "w").info_gathered = false := by
  constructor
  · exact (info_gathered_monotone_within_turn gather_llm
      { initial_state "w" with info_gathered := true }).1
      { { initial_state "w" with info_gathered := true } with
          next_worker := "provide_service_info" }
      (by rfl) rfl
  · exact (info_gathered_monotone_within_turn gather_llm
      { initial_state "w" with info_gathered := true }).2.2 [] "hi" "w"

/-! ### C4: two history entries per processed turn -/

theorem run_ws_length_general (llm : LLM) (ps : List Payload) (h : List ChatMsg) :
    (run_ws llm ps h).length = h.length + 2 * processed_count ps := by
  induction ps generalizing h with
  | nil => simp [run_ws, processed_count]
  | cons p ps ih =>
    cases p with
    | malformed raw =>
      simp only [run_ws, websocket_turn, processed_count, extract_payload]
      rw [ih]
    | json j =>
      simp only [run_ws, websocket_turn, processed_count, extract_payload]
      cases he : extract_user_text j with
      | error e => simp [step_history]
      | ok o =>
        cases o with
        | none =>
          rw [ih]
        | some t =>
          rw [ih]
          simp only [List.length_append, List.length_cons, List.length_nil]
          omega

/-- C4: starting from the empty history the session is created with, a
sequence of frames containing N processed user utterances leaves the history
at exactly 2N entries; each processed frame appends exactly one user entry
then one agent entry (in that order), and no step ever shortens the history. -/
theorem history_two_entries_per_turn (llm : LLM) (ps : List Payload)
    (h : List ChatMsg) (p : Payload) :
    (run_ws llm ps []).length = 2 * processed_count ps ∧
    h.length ≤ (step_history (websocket_turn llm h p)).length ∧
    (∀ t, extract_payload p = .ok (some t) →
      step_history (websocket_turn llm h p) =
        (h ++ [{ role := "user", content := t }]) ++
          [{ role := "assistant",
             content := get_agent_response llm t
               (h ++ [{ role := "user", content := t }]) "unknown" }]) := by
  refine ⟨by simpa using run_ws_length_general llm ps [], ?_, ?_⟩
  · cases p with
    | malformed raw => exact le_refl h.length
    | json j =>
      simp only [websocket_turn]
      cases he : extract_user_text j with
      | error e => exact le_refl h.length
      | ok o =>
        cases o with
        | none => exact le_refl h.length
        | some t => simp [step_history]
  · intro t ht
    cases p with
    | malformed raw => simp [extract_payload] at ht
    | json j =>
      have hp : extract_payload (Payload.json j) = extract_user_text j := rfl
      rw [hp] at ht
      simp only [websocket_turn]
      cases he : extract_user_text j with
      | error e =>
        rw [he] at ht
        cases ht
      | ok o =>
        cases o with
        | none =>
          rw [he] at ht
          simp at ht
        | some t' =>
          rw [he] at ht
          have : t' = t := by simpa using ht
          subst this
          rfl

/-- Witness for C4 at a concrete two-frame session. -/
theorem history_two_entries_per_turn_witness :
    (run_ws gather_llm [voice_payload, voice_payload] []).length =
      2 * processed_count [voice_payload, voice_payload] ∧
    step_history (websocket_turn gather_llm [] voice_payload) =
      (([] : List ChatMsg) ++ [{ role := "user", content := "hi" }]) ++
        [{ role := "assistant",
           content := get_agent_response gather_llm "hi"
             (([] : List ChatMsg) ++ [{ role := "user", content := "hi" }]) "unknown" }] :=
  ⟨(history_two_entries_per_turn gather_llm [voice_payload, voice_payload] []
      voice_payload).1,
   (history_two_entries_per_turn gather_llm [voice_payload, voice_payload] []
      voice_payload).2.2 "hi" rfl⟩

/-! ### C9: malformed or empty frames are skipped without effect -/

/-- C9: a frame that is not valid JSON, or from which no user text can be
extracted, mutates nothing: the history is unchanged, no outbound text is
sent, and no handler runs — the step's outcome is identical under any two
language models, so the agent is never consulted. -/
theorem malformed_payload_skips_turn (llm llm2 : LLM) (h : List ChatMsg) (p : Payload)
    (hskip : ∀ t, extract_payload p ≠ .ok (some t)) :
    step_history (websocket_turn llm h p) = h ∧
    step_sent (websocket_turn llm h p) = none ∧
    websocket_turn llm h p = websocket_turn llm2 h p := by
  cases p with
  | malformed raw => exact ⟨rfl, rfl, rfl⟩
  | json j =>
    simp only [websocket_turn]
    cases he : extract_user_text j with
    | error e => exact ⟨rfl, rfl, rfl⟩
    | ok o =>
      cases o with
      | none => exact ⟨rfl, rfl, rfl⟩
      | some t =>
        exact absurd (show extract_payload (Payload.json j) = .ok (some t) from he)
          (hskip t)

/-- Witness for C9 on a frame that is not valid JSON. -/
theorem malformed_payload_skips_turn_witness :
    step_history (websocket_turn gather_llm [] bad_payload) = [] ∧
    step_sent (websocket_turn gather_llm [] bad_payload) = none ∧
    websocket_turn gather_llm [] bad_payload = websocket_turn fail_llm [] bad_payload :=
  malformed_payload_skips_turn gather_llm fail_llm [] bad_payload
    (fun t ht => by simp [extract_payload, bad_payload] at ht)

/-! ### C7: `get_session` and `cleanup_expired_sessions` -/

theorem foldl_delete_sessions (keys : List String) (m : SessionManager) :
    (keys.foldl (fun acc call_sid => delete_session acc call_sid) m).sessions =
      m.sessions.filter (fun e => !keys.contains e.1) := by
  induction keys generalizing m with
  | nil => simp
  | cons k ks ih =>
    simp only [List.foldl_cons, ih]
    unfold delete_session
    rw [List.filter_filter]
    apply List.filter_congr
    intro e _
    by_cases hek : e.1 = k <;> by_cases hks : e.1 ∈ ks <;>
      simp [List.contains_cons, hek, hks, bne]

/-- With duplicate-free keys (Python dict keys are unique), a key of an entry
of `l` appears among the keys of `l.filter p` exactly when that entry
satisfies `p`. -/
theorem mem_filter_keys_iff (l : List (String × StoredSession))
    (p : String × StoredSession → Bool)
    (hk : (l.map Prod.fst).Nodup) (e : String × StoredSession) (he : e ∈ l) :
    e.1 ∈ (l.filter p).map Prod.fst ↔ p e = true := by
  induction l with
  | nil => cases he
  | cons a l ih =>
    simp only [List.map_cons, List.nodup_cons] at hk
    obtain ⟨ha, hk⟩ := hk
    rcases List.mem_cons.mp he with rfl | he'
    · constructor
      · intro hmem
        by_contra hp
        have hpf : p e = false := eq_false_of_ne_true hp
        have hfe : (e :: l).filter p = l.filter p := by simp [List.filter_cons, hpf]
        rw [hfe] at hmem
        exact ha (List.map_subset Prod.fst (List.filter_subset' l) hmem)
      · intro hp
        have hfe : (e :: l).filter p = e :: l.filter p := by simp [List.filter_cons, hp]
        rw [hfe]
        simp
    · cases hp : p a with
      | true =>
        have hfe : (a :: l).filter p = a :: l.filter p := by simp [List.filter_cons, hp]
        have hne : e.1 ≠ a.1 := by
          intro hEq
          exact ha (hEq ▸ List.mem_map_of_mem Prod.fst he')
        rw [hfe, List.map_cons, List.mem_cons, ih hk he']
        simp [hne]
      | false =>
        have hfe : (a :: l).filter p = l.filter p := by simp [List.filter_cons, hp]
        rw [hfe]
        exact ih hk he'

theorem cleanup_removes_exactly_expired (m : SessionManager) (now : Int)
    (hk : (m.sessions.map Prod.fst).Nodup) :
    (cleanup_expired_sessions m now).1 =
      (m.sessions.filter (session_expired m.timeout now)).length ∧
    (cleanup_expired_sessions m now).2.sessions =
      m.sessions.filter (fun e => !session_expired m.timeout now e) := by
  constructor
  · simp [cleanup_expired_sessions]
  · unfold cleanup_expired_sessions
    simp only []
    rw [foldl_delete_sessions]
    apply List.filter_congr
    intro e he
    have hiff := mem_filter_keys_iff m.sessions (session_expired m.timeout now) hk e he
    cases hp : session_expired m.timeout now e with
    | true =>
      have hm : e.1 ∈ (m.sessions.filter (session_expired m.timeout now)).map Prod.fst :=
        hiff.mpr hp
      simp [hm]
    | false =>
      have hm : e.1 ∉ (m.sessions.filter (session_expired m.timeout now)).map Prod.fst := by
        rw [hiff, hp]
        simp
      simp [hm]

/-- C7: `get_session` returns the stored state and refreshes the last-accessed
timestamp when the idle time is within the timeout; when it exceeds the
timeout the entry is deleted and `None` returned; when no entry exists the
store is untouched and `None` returned; and `cleanup_expired_sessions` removes
exactly the entries whose last-accessed age exceeds the timeout and returns
how many it removed. -/
theorem session_get_refresh_and_sweep (m : SessionManager) (now : Int)
    (call_sid : String) :
    (m.sessions.lookup call_sid = none → get_session m now call_sid = (none, m)) ∧
    (∀ sess, m.sessions.lookup call_sid = some sess →
      (now - sess.last_accessed ≤ m.timeout →
        (get_session m now call_sid).1 = some sess.state ∧
        (get_session m now call_sid).2.sessions.lookup call_sid =
          some { sess with last_accessed := now }) ∧
      (now - sess.last_accessed > m.timeout →
        get_session m now call_sid = (none, delete_session m call_sid) ∧
        (delete_session m call_sid).sessions.lookup call_sid = none)) ∧
    ((m.sessions.map Prod.fst).Nodup →
      (cleanup_expired_sessions m now).1 =
        (m.sessions.filter (session_expired m.timeout now)).length ∧
      (cleanup_expired_sessions m now).2.sessions =
        m.sessions.filter (fun e => !session_expired m.timeout now e)) := by
  refine ⟨?_, ?_, fun hk => cleanup_removes_exactly_expired m now hk⟩
  · intro hnone
    unfold get_session
    rw [hnone]
  · intro sess hsess
    constructor
    · intro hle
      simp only [get_session, hsess]
      rw [if_neg (not_lt.mpr hle)]
      refine ⟨rfl, ?_⟩
      simp only []
      rw [lookup_map_refresh m.sessions call_sid now, hsess]
      rfl
    · intro hgt
      simp only [get_session, hsess]
      rw [if_pos hgt]
      exact ⟨rfl, lookup_filter_ne m.sessions call_sid⟩

/-- Witness for C7 on a concrete store: the fresh session `"a"` is returned
and refreshed, the stale session `"b"` is absent and removed, and the sweep
removes exactly the stale entry. -/
theorem session_get_refresh_and_sweep_witness :
    ((get_session demo_manager 100 "a").1 = some (initial_state "a") ∧
      (get_session demo_manager 100 "a").2.sessions.lookup "a" =
        some { state := initial_state "a", created_at := 0, last_accessed := 100 }) ∧
    (get_session demo_manager 100 "b" = (none, delete_session demo_manager "b") ∧
      (delete_session demo_manager "b").sessions.lookup "b" = none) ∧
    ((cleanup_expired_sessions demo_manager 100).1 =
        (demo_manager.sessions.filter (session_expired demo_manager.timeout 100)).length ∧
      (cleanup_expired_sessions demo_manager 100).2.sessions =
        demo_manager.sessions.filter
          (fun e => !session_expired demo_manager.timeout 100 e)) := by
  refine ⟨?_, ?_, ?_⟩
  · exact ((session_get_refresh_and_sweep demo_manager 100 "a").2.1
      { state := initial_state "a", created_at := 0, last_accessed := 0 } rfl).1
      (by decide)
  · exact ((session_get_refresh_and_sweep demo_manager 100 "b").2.1
      { state := initial_state "b", created_at := -1000, last_accessed := -1000 } rfl).2
      (by decide)
  · exact (session_get_refresh_and_sweep demo_manager 100 "x").2.2 (by decide)

end CoffeeBeans
